import Mathlib

/-!
Verification of the expense-tracker application (`app.py`).

The application is a Flask web app backed by a SQLite store.  We embed the
data model (the `Expense` table) and the request handlers that carry the
computational content — `dashboard` (aggregation and chart rendering),
`add_expense`, `edit_expense` and `delete_expense` — as pure Lean functions
over an explicit list-of-records store.

Modelling conventions:
* SQL `Float` amounts are modelled as exact rationals `ℚ` (ideal arithmetic).
* A table is a `List Expense`; `session.query(...).filter_by(...)` is
  `List.filter`; `.first()` is `List.find?`; row deletion is `List.eraseP`;
  in-place mutation of the row returned by `.first()` is `updateFirst`.
* SQLite `GROUP BY k` materialises one output row per distinct key, ordered
  ascending by the (string) key; we model it as sorting the deduplicated key
  list and summing each fiber (`groupTotals`).
* `strftime('%Y-%m', date)` zero-pads the year to four digits and the month
  to two (`monthLabel`).
* Matplotlib `savefig` calls are modelled by recording the written path in
  `DashboardView.saved_charts`; `os.path.join(BASE_DIR, p)` is `joinPath`
  with the base directory kept abstract as a parameter.
-/

namespace ExpenseTracker

/-- A calendar date as stored in the `Date` column (`datetime.date`). -/
structure Date where
  year : Nat
  month : Nat
  day : Nat
  deriving DecidableEq, Repr

/-- The `Expense` model: `id`, `user_id`, `category`, `amount`, `date`,
`description` columns of the `expenses` table. -/
structure Expense where
  id : Nat
  user_id : Nat
  category : String
  amount : ℚ
  date : Date
  description : String
  deriving DecidableEq, Repr

/-- `strftime('%Y')` renders the year zero-padded to four digits (SQLite
dates range over years 0000-9999). -/
def pad4 (n : Nat) : String :=
  ⟨[Nat.digitChar (n / 1000 % 10), Nat.digitChar (n / 100 % 10),
    Nat.digitChar (n / 10 % 10), Nat.digitChar (n % 10)]⟩

/-- `strftime('%m')` renders the month zero-padded to two digits. -/
def pad2 (n : Nat) : String :=
  ⟨[Nat.digitChar (n / 10 % 10), Nat.digitChar (n % 10)]⟩

/-- `strftime('%Y-%m', date)`: four-digit year, dash, two-digit month. -/
def monthLabel (d : Date) : String :=
  pad4 d.year ++ "-" ++ pad2 d.month

/-- Lexicographic comparison of character lists: SQLite's default BINARY
collation is a byte-wise `memcmp`, which on UTF-8 text coincides with
code-point lexicographic order. -/
def charListLe : List Char → List Char → Bool
  | [], _ => true
  | _ :: _, [] => false
  | a :: as, b :: bs => if a = b then charListLe as bs else decide (a < b)

/-- BINARY-collation `<=` on strings. -/
def strLe (a b : String) : Bool :=
  charListLe a.data b.data

/-- The ordering relation SQLite uses on text `GROUP BY` keys. -/
def strOrd (a b : String) : Prop := strLe a b = true

instance : DecidableRel strOrd :=
  fun a b => instDecidableEqBool (strLe a b) true

/-- `func.sum(Expense.amount)` over a list of rows. -/
def sumAmounts (es : List Expense) : ℚ :=
  (es.map Expense.amount).sum

/-- SQL `SELECT key, SUM(amount) ... GROUP BY key`: one row per distinct key
value present in `es`, ordered ascending by key, each paired with the sum of
the amounts of the rows having that key. -/
def groupTotals (key : Expense → String) (es : List Expense) : List (String × ℚ) :=
  (List.insertionSort strOrd (es.map key).dedup).map
    (fun k => (k, sumAmounts (es.filter (fun e => key e == k))))

/-- Relative path of the monthly-trends bar chart (source line 119/140). -/
def trends_rel : String := "static/monthly_trends.png"

/-- Relative path of the category pie chart (source line 134/140). -/
def pie_rel : String := "static/category_pie.png"

/-- `os.path.join(baseDir, p)` for a relative `p`. -/
def joinPath (a b : String) : String := a ++ "/" ++ b

/-- Everything the `dashboard` handler computes: the template arguments of
`render_template('dashboard.html', ...)` plus the chart files it wrote. -/
structure DashboardView where
  expenses : List Expense
  monthly_totals : List (String × ℚ)
  category_totals : List (String × ℚ)
  saved_charts : List String
  trends_img : String
  pie_img : Option String
  deriving DecidableEq, Repr

/-- The `dashboard` route: fetch the current user's expenses, group them by
`strftime('%Y-%m', date)` and by `category`, always save the bar chart, save
the pie chart only when `category_totals` is non-empty (else `pie_path =
None`), and pass the relative image paths to the template. -/
def dashboard (baseDir : String) (store : List Expense) (uid : Nat) : DashboardView :=
  let expenses := store.filter (fun e => e.user_id == uid)
  let monthly_totals := groupTotals (fun e => monthLabel e.date) expenses
  let category_totals := groupTotals Expense.category expenses
  let trends_path := joinPath baseDir trends_rel
  let pie_path : Option String :=
    if category_totals.isEmpty then none else some (joinPath baseDir pie_rel)
  { expenses := expenses
    monthly_totals := monthly_totals
    category_totals := category_totals
    saved_charts := trends_path :: (match pie_path with | some p => [p] | none => [])
    trends_img := trends_rel
    pie_img := if pie_path.isSome then some pie_rel else none }

/-- The `add_expense` POST handler: insert a new row owned by the current
user (`newId` stands for the autoincremented primary key). -/
def add_expense (store : List Expense) (uid newId : Nat) (category : String)
    (amount : ℚ) (date : Date) (description : String) : List Expense :=
  store ++ [{ id := newId, user_id := uid, category := category, amount := amount,
              date := date, description := description }]

/-- `filter_by(id=expense_id, user_id=current_user.id)`: the row predicate
used by both `edit_expense` and `delete_expense`. -/
def isTarget (uid eid : Nat) (e : Expense) : Bool :=
  e.id == eid && e.user_id == uid

/-- The field assignments of the `edit_expense` POST branch: `category`,
`amount`, `date`, `description` are overwritten, `id` and `user_id` kept. -/
def applyEdit (category : String) (amount : ℚ) (date : Date) (description : String)
    (e : Expense) : Expense :=
  { e with category := category, amount := amount, date := date, description := description }

/-- Mutate the first row satisfying `p` (the row `.first()` returned),
leaving every other row untouched. -/
def updateFirst (p : Expense → Bool) (f : Expense → Expense) : List Expense → List Expense
  | [] => []
  | e :: es => if p e then f e :: es else e :: updateFirst p f es

/-- The `edit_expense` POST handler: look up the expense by `(id, user_id)`;
if absent, flash `Expense not found.` and leave the store unchanged; else
overwrite the four submitted fields of that row and commit. -/
def edit_expense (store : List Expense) (uid eid : Nat) (category : String) (amount : ℚ)
    (date : Date) (description : String) : List Expense × String :=
  match store.find? (isTarget uid eid) with
  | none => (store, "Expense not found.")
  | some _ => (updateFirst (isTarget uid eid) (applyEdit category amount date description) store,
               "Expense updated successfully!")

/-- The `delete_expense` handler: look up the expense by `(id, user_id)`;
if absent, flash `Expense not found.` and leave the store unchanged; else
delete that row and commit. -/
def delete_expense (store : List Expense) (uid eid : Nat) : List Expense × String :=
  match store.find? (isTarget uid eid) with
  | none => (store, "Expense not found.")
  | some _ => (store.eraseP (isTarget uid eid), "Expense deleted successfully!")

/-! ### Concrete fixtures (the worked example of the specification and
small stores used to exercise the handlers) -/

/-- `(2024-01, Food, 10)` of the specification's example, owned by user 1. -/
def expFood10 : Expense :=
  { id := 1, user_id := 1, category := "Food", amount := 10,
    date := { year := 2024, month := 1, day := 5 }, description := "" }

/-- `(2024-01, Food, 5)` of the specification's example, owned by user 1. -/
def expFood5 : Expense :=
  { id := 2, user_id := 1, category := "Food", amount := 5,
    date := { year := 2024, month := 1, day := 9 }, description := "" }

/-- `(2024-02, Transport, 20)` of the specification's example, owned by user 1. -/
def expTransport20 : Expense :=
  { id := 3, user_id := 1, category := "Transport", amount := 20,
    date := { year := 2024, month := 2, day := 1 }, description := "" }

/-- The store of the specification's worked example. -/
def exampleStore : List Expense :=
  [expFood10, expFood5, expTransport20]

/-- An expense owned by a different user (user 2). -/
def otherExpense : Expense :=
  { id := 4, user_id := 2, category := "Rent", amount := 30,
    date := { year := 2024, month := 3, day := 1 }, description := "" }

/-- The example store with a second user's expense interleaved. -/
def exampleStoreMixed : List Expense :=
  exampleStore ++ [otherExpense]

/-- A store whose two categories differ only in case and whitespace. -/
def caseStore : List Expense :=
  [ { id := 1, user_id := 1, category := "Food", amount := 10,
      date := { year := 2024, month := 1, day := 5 }, description := "" },
    { id := 2, user_id := 1, category := "food ", amount := 5,
      date := { year := 2024, month := 1, day := 9 }, description := "" } ]

/-! ### Order properties of the BINARY collation -/

theorem charListLe_total (as : List Char) :
    ∀ bs, charListLe as bs = true ∨ charListLe bs as = true := by
  induction as with
  | nil => intro bs; exact Or.inl rfl
  | cons a as ih =>
    intro bs
    cases bs with
    | nil => exact Or.inr rfl
    | cons b bs =>
      by_cases hab : a = b
      · subst hab
        rcases ih bs with h | h
        · left; simpa [charListLe] using h
        · right; simpa [charListLe] using h
      · rcases lt_or_gt_of_ne hab with h | h
        · left; simp [charListLe, hab, h]
        · right; simp [charListLe, Ne.symm hab, h]

theorem charListLe_trans (as : List Char) :
    ∀ bs cs, charListLe as bs = true → charListLe bs cs = true →
      charListLe as cs = true := by
  induction as with
  | nil => intro bs cs h1 h2; rfl
  | cons a as ih =>
    intro bs cs h1 h2
    cases bs with
    | nil => simp [charListLe] at h1
    | cons b bs =>
      cases cs with
      | nil => simp [charListLe] at h2
      | cons c cs =>
        by_cases hab : a = b
        · subst hab
          simp only [charListLe, if_pos rfl] at h1
          by_cases hac : a = c
          · subst hac
            simp only [charListLe, if_pos rfl] at h2 ⊢
            exact ih bs cs h1 h2
          · simp [charListLe, hac] at h2 ⊢
            exact h2
        · simp [charListLe, hab] at h1
          by_cases hbc : b = c
          · subst hbc
            simp [charListLe, hab]
            exact h1
          · simp [charListLe, hbc] at h2
            have hac : a < c := lt_trans h1 h2
            simp [charListLe, ne_of_lt hac, hac]

instance : IsTotal String strOrd :=
  ⟨fun a b => charListLe_total a.data b.data⟩

instance : IsTrans String strOrd :=
  ⟨fun a b c h1 h2 => charListLe_trans a.data b.data c.data h1 h2⟩

/-! ### Summation lemmas -/

theorem sumAmounts_nil : sumAmounts [] = 0 := rfl

theorem sumAmounts_cons (e : Expense) (es : List Expense) :
    sumAmounts (e :: es) = e.amount + sumAmounts es := by
  simp [sumAmounts]

/-- Splitting a sum along a Boolean predicate. -/
theorem sumAmounts_filter_add (p : Expense → Bool) (es : List Expense) :
    sumAmounts (es.filter p) + sumAmounts (es.filter (fun e => !(p e))) =
      sumAmounts es := by
  induction es with
  | nil => simp [sumAmounts]
  | cons e es ih =>
    by_cases h : p e <;>
      simp [List.filter_cons, h, sumAmounts_cons] <;>
      rw [← ih] <;> ring

/-- Summing each fiber of a key function over a duplicate-free list of keys
covering every row recovers the total sum. -/
theorem sum_fibers (key : Expense → String) (D : List String) (hD : D.Nodup) :
    ∀ es : List Expense, (∀ e ∈ es, key e ∈ D) →
      (D.map (fun k => sumAmounts (es.filter (fun e => key e == k)))).sum =
        sumAmounts es := by
  induction D with
  | nil =>
    intro es hcov
    have : es = [] := by
      cases es with
      | nil => rfl
      | cons e es => exact absurd (hcov e (List.mem_cons_self e es)) (List.not_mem_nil _)
    simp [this, sumAmounts]
  | cons d D ih =>
    intro es hcov
    have hd : d ∉ D := (List.nodup_cons.mp hD).1
    have hD' : D.Nodup := (List.nodup_cons.mp hD).2
    simp only [List.map_cons, List.sum_cons]
    have htail : ∀ k ∈ D, es.filter (fun e => key e == k) =
        (es.filter (fun e => !(key e == d))).filter (fun e => key e == k) := by
      intro k hk
      have hkd : k ≠ d := fun h => hd (h ▸ hk)
      rw [List.filter_filter]
      apply List.filter_congr
      intro e _
      cases hek : (key e == k) with
      | false => simp
      | true =>
        have : key e = k := by simpa using hek
        simp [this, hkd]
    have hmap : D.map (fun k => sumAmounts (es.filter (fun e => key e == k))) =
        D.map (fun k => sumAmounts
          ((es.filter (fun e => !(key e == d))).filter (fun e => key e == k))) := by
      apply List.map_congr_left
      intro k hk
      rw [htail k hk]
    rw [hmap, ih hD' _ ?_]
    · exact sumAmounts_filter_add (fun e => key e == d) es
    · intro e he
      have he1 : e ∈ es := (List.mem_filter.mp he).1
      have he2 : ¬(key e = d) := by
        have := (List.mem_filter.mp he).2
        simpa using this
      have := hcov e he1
      rcases List.mem_cons.mp this with h | h
      · exact absurd h he2
      · exact h

/-! ### Structure of `groupTotals` -/

theorem groupTotals_keys (key : Expense → String) (es : List Expense) :
    (groupTotals key es).map Prod.fst =
      List.insertionSort strOrd (es.map key).dedup := by
  simp [groupTotals, List.map_map, Function.comp_def]

theorem groupTotals_keys_nodup (key : Expense → String) (es : List Expense) :
    ((groupTotals key es).map Prod.fst).Nodup := by
  rw [groupTotals_keys]
  exact (List.perm_insertionSort strOrd _).symm.nodup (List.nodup_dedup _)

theorem groupTotals_mem_keys (key : Expense → String) (es : List Expense) (k : String) :
    k ∈ (groupTotals key es).map Prod.fst ↔ k ∈ es.map key := by
  rw [groupTotals_keys]
  rw [(List.perm_insertionSort strOrd _).mem_iff]
  exact List.mem_dedup

theorem groupTotals_keys_sorted (key : Expense → String) (es : List Expense) :
    List.Sorted strOrd ((groupTotals key es).map Prod.fst) := by
  rw [groupTotals_keys]
  exact List.sorted_insertionSort strOrd _

theorem groupTotals_snd (key : Expense → String) (es : List Expense) (p : String × ℚ)
    (hp : p ∈ groupTotals key es) :
    p.2 = sumAmounts (es.filter (fun e => key e == p.1)) := by
  rcases List.mem_map.mp hp with ⟨k, _, rfl⟩
  rfl

theorem groupTotals_pair_mem (key : Expense → String) (es : List Expense) (k : String)
    (hk : k ∈ es.map key) :
    (k, sumAmounts (es.filter (fun e => key e == k))) ∈ groupTotals key es := by
  apply List.mem_map.mpr
  refine ⟨k, ?_, rfl⟩
  rw [(List.perm_insertionSort strOrd _).mem_iff]
  exact List.mem_dedup.mpr hk

/-- The second components of `groupTotals` sum to the total of all rows. -/
theorem groupTotals_snd_sum (key : Expense → String) (es : List Expense) :
    ((groupTotals key es).map Prod.snd).sum = sumAmounts es := by
  have h1 : (groupTotals key es).map Prod.snd =
      (List.insertionSort strOrd (es.map key).dedup).map
        (fun k => sumAmounts (es.filter (fun e => key e == k))) := by
    simp [groupTotals, List.map_map, Function.comp]
  rw [h1]
  have h2 : List.Perm
      ((List.insertionSort strOrd (es.map key).dedup).map
        (fun k => sumAmounts (es.filter (fun e => key e == k))))
      (((es.map key).dedup).map
        (fun k => sumAmounts (es.filter (fun e => key e == k)))) :=
    (List.perm_insertionSort strOrd _).map _
  rw [h2.sum_eq]
  exact sum_fibers key (es.map key).dedup (List.nodup_dedup _) es
    (fun e he => List.mem_dedup.mpr (List.mem_map.mpr ⟨e, he, rfl⟩))

/-! ### Projections of `dashboard` -/

theorem dashboard_expenses (baseDir : String) (store : List Expense) (uid : Nat) :
    (dashboard baseDir store uid).expenses =
      store.filter (fun e => e.user_id == uid) := rfl

theorem dashboard_monthly_totals (baseDir : String) (store : List Expense) (uid : Nat) :
    (dashboard baseDir store uid).monthly_totals =
      groupTotals (fun e => monthLabel e.date) (store.filter (fun e => e.user_id == uid)) := rfl

theorem dashboard_category_totals (baseDir : String) (store : List Expense) (uid : Nat) :
    (dashboard baseDir store uid).category_totals =
      groupTotals Expense.category (store.filter (fun e => e.user_id == uid)) := rfl

theorem dashboard_trends_img (baseDir : String) (store : List Expense) (uid : Nat) :
    (dashboard baseDir store uid).trends_img = trends_rel := rfl

theorem dashboard_pie_img (baseDir : String) (store : List Expense) (uid : Nat) :
    (dashboard baseDir store uid).pie_img =
      if (dashboard baseDir store uid).category_totals = [] then none
        else some pie_rel := by
  by_cases h : groupTotals Expense.category (store.filter (fun e => e.user_id == uid)) = []
  · simp [dashboard, h]
  · simp [dashboard, h, List.isEmpty_iff]

theorem dashboard_saved_charts (baseDir : String) (store : List Expense) (uid : Nat) :
    (dashboard baseDir store uid).saved_charts =
      joinPath baseDir trends_rel ::
        (if (dashboard baseDir store uid).category_totals = [] then []
          else [joinPath baseDir pie_rel]) := by
  by_cases h : groupTotals Expense.category (store.filter (fun e => e.user_id == uid)) = []
  · simp [dashboard, h]
  · simp [dashboard, h, List.isEmpty_iff]

/-! ### The claims -/

/-- C1: for every store and every user, the sum of the amounts in the
monthly-totals sequence equals the sum of the amounts in the category-totals
sequence, and both equal the sum of all of that user's expense amounts
(conservation law). -/
theorem conservation_law (baseDir : String) (store : List Expense) (uid : Nat) :
    ((dashboard baseDir store uid).monthly_totals.map Prod.snd).sum =
        sumAmounts (store.filter (fun e => e.user_id == uid)) ∧
    ((dashboard baseDir store uid).category_totals.map Prod.snd).sum =
        sumAmounts (store.filter (fun e => e.user_id == uid)) ∧
    ((dashboard baseDir store uid).monthly_totals.map Prod.snd).sum =
        ((dashboard baseDir store uid).category_totals.map Prod.snd).sum := by
  rw [dashboard_monthly_totals, dashboard_category_totals]
  refine ⟨groupTotals_snd_sum _ _, groupTotals_snd_sum _ _, ?_⟩
  rw [groupTotals_snd_sum, groupTotals_snd_sum]

/-- C3: for a user with zero expenses the dashboard yields two empty totals
sequences, no pie-chart artifact, and signals its absence (`pie_img = none`)
instead of erroring; only the bar chart is written. -/
theorem empty_dashboard (baseDir : String) (store : List Expense) (uid : Nat)
    (h : store.filter (fun e => e.user_id == uid) = []) :
    (dashboard baseDir store uid).monthly_totals = [] ∧
    (dashboard baseDir store uid).category_totals = [] ∧
    (dashboard baseDir store uid).pie_img = none ∧
    (dashboard baseDir store uid).saved_charts = [joinPath baseDir trends_rel] := by
  have hm : groupTotals (fun e => monthLabel e.date)
      (store.filter (fun e => e.user_id == uid)) = [] := by rw [h]; rfl
  have hc : groupTotals Expense.category
      (store.filter (fun e => e.user_id == uid)) = [] := by rw [h]; rfl
  refine ⟨?_, ?_, ?_, ?_⟩
  · rw [dashboard_monthly_totals]; exact hm
  · rw [dashboard_category_totals]; exact hc
  · rw [dashboard_pie_img, dashboard_category_totals]; simp [hc]
  · rw [dashboard_saved_charts, dashboard_category_totals]; simp [hc]

/-- C3 witness: a store holding only another user's expense. -/
theorem empty_dashboard_witness :
    (dashboard "app" [otherExpense] 1).monthly_totals = [] ∧
    (dashboard "app" [otherExpense] 1).category_totals = [] ∧
    (dashboard "app" [otherExpense] 1).pie_img = none ∧
    (dashboard "app" [otherExpense] 1).saved_charts = [joinPath "app" trends_rel] :=
  empty_dashboard "app" [otherExpense] 1 (by decide)

/-- C7: on the specification's worked example the dashboard returns monthly
totals `[("2024-01", 15), ("2024-02", 20)]` and category totals
`[("Food", 15), ("Transport", 20)]`. -/
theorem example_aggregation :
    (dashboard "app" exampleStore 1).monthly_totals =
      [("2024-01", (15 : ℚ)), ("2024-02", 20)] ∧
    (dashboard "app" exampleStore 1).category_totals =
      [("Food", (15 : ℚ)), ("Transport", 20)] := by
  have hfil : exampleStore.filter (fun e => e.user_id == 1) = exampleStore := by decide
  constructor
  · rw [dashboard_monthly_totals, hfil]
    simp only [groupTotals]
    rw [show List.insertionSort strOrd ((exampleStore.map (fun e => monthLabel e.date)).dedup) =
        ["2024-01", "2024-02"] from by decide]
    simp only [List.map_cons, List.map_nil]
    rw [show exampleStore.filter (fun e => monthLabel e.date == "2024-01") =
          [expFood10, expFood5] from by decide,
        show exampleStore.filter (fun e => monthLabel e.date == "2024-02") =
          [expTransport20] from by decide]
    norm_num [sumAmounts, expFood10, expFood5, expTransport20]
  · rw [dashboard_category_totals, hfil]
    simp only [groupTotals]
    rw [show List.insertionSort strOrd ((exampleStore.map Expense.category).dedup) =
        ["Food", "Transport"] from by decide]
    simp only [List.map_cons, List.map_nil]
    rw [show exampleStore.filter (fun e => e.category == "Food") =
          [expFood10, expFood5] from by decide,
        show exampleStore.filter (fun e => e.category == "Transport") =
          [expTransport20] from by decide]
    norm_num [sumAmounts, expFood10, expFood5, expTransport20]

/-- C9 as stated is false on the code: the artifact paths are not a function
separating users — two distinct users receive identical chart paths. -/
theorem artifact_counterexample :
    (dashboard "app" exampleStore 1).trends_img =
      (dashboard "app" exampleStore 2).trends_img ∧
    (dashboard "app" exampleStore 1).saved_charts.head? =
      (dashboard "app" exampleStore 2).saved_charts.head? ∧
    (1 : Nat) ≠ 2 :=
  ⟨rfl, rfl, by decide⟩

/-- C9 amended: chart artifacts are persisted at fixed well-known paths,
identical for all requesting users (the bar chart at
`static/monthly_trends.png`, the pie chart, when produced, at
`static/category_pie.png`). -/
theorem artifact_paths_fixed (baseDir : String) (store : List Expense) (uid : Nat) :
    (dashboard baseDir store uid).trends_img = "static/monthly_trends.png" ∧
    ((dashboard baseDir store uid).pie_img = none ∨
      (dashboard baseDir store uid).pie_img = some "static/category_pie.png") ∧
    (dashboard baseDir store uid).saved_charts.head? =
      some (joinPath baseDir "static/monthly_trends.png") := by
  refine ⟨rfl, ?_, ?_⟩
  · rw [dashboard_pie_img]
    by_cases h : (dashboard baseDir store uid).category_totals = [] <;> simp [h, pie_rel]
  · rw [dashboard_saved_charts]; rfl

/-- C10: the monthly-trends bar chart is always written and its path always
reported to the template, for every user including one with zero expenses;
only the pie chart is conditional on non-empty category totals. -/
theorem trends_always_rendered (baseDir : String) (store : List Expense) (uid : Nat) :
    joinPath baseDir trends_rel ∈ (dashboard baseDir store uid).saved_charts ∧
    (dashboard baseDir store uid).trends_img = trends_rel ∧
    ((dashboard baseDir store uid).pie_img = none ↔
      (dashboard baseDir store uid).category_totals = []) := by
  refine ⟨?_, rfl, ?_⟩
  · rw [dashboard_saved_charts]; exact List.mem_cons_self _ _
  · rw [dashboard_pie_img]
    by_cases h : (dashboard baseDir store uid).category_totals = [] <;> simp [h]

/-- C2: for a user with at least one expense, the monthly-totals sequence has
exactly one pair per distinct month label present among that user's expenses
(duplicate-free keys whose membership is exactly the labels
`strftime('%Y-%m')` of the expense dates), each pair's sum is the total of
that user's amounts in that month, and the pairs are ordered ascending by
month label. -/
theorem monthly_totals_spec (baseDir : String) (store : List Expense) (uid : Nat)
    (hne : store.filter (fun e => e.user_id == uid) ≠ []) :
    ((dashboard baseDir store uid).monthly_totals.map Prod.fst).Nodup ∧
    (∀ m : String, m ∈ (dashboard baseDir store uid).monthly_totals.map Prod.fst ↔
      ∃ e ∈ store.filter (fun e => e.user_id == uid), monthLabel e.date = m) ∧
    (∀ p ∈ (dashboard baseDir store uid).monthly_totals,
      p.2 = sumAmounts ((store.filter (fun e => e.user_id == uid)).filter
        (fun e => monthLabel e.date == p.1))) ∧
    List.Sorted strOrd ((dashboard baseDir store uid).monthly_totals.map Prod.fst) := by
  rw [dashboard_monthly_totals]
  refine ⟨groupTotals_keys_nodup _ _, ?_, ?_, groupTotals_keys_sorted _ _⟩
  · intro m
    rw [groupTotals_mem_keys]
    constructor
    · intro hm
      rcases List.mem_map.mp hm with ⟨e, he, rfl⟩
      exact ⟨e, he, rfl⟩
    · rintro ⟨e, he, rfl⟩
      exact List.mem_map.mpr ⟨e, he, rfl⟩
  · intro p hp
    exact groupTotals_snd _ _ p hp

/-- C2 witness: the worked example's store for user 1. -/
theorem monthly_totals_spec_witness :
    ((dashboard "app" exampleStore 1).monthly_totals.map Prod.fst).Nodup ∧
    (∀ m : String, m ∈ (dashboard "app" exampleStore 1).monthly_totals.map Prod.fst ↔
      ∃ e ∈ exampleStore.filter (fun e => e.user_id == 1), monthLabel e.date = m) ∧
    (∀ p ∈ (dashboard "app" exampleStore 1).monthly_totals,
      p.2 = sumAmounts ((exampleStore.filter (fun e => e.user_id == 1)).filter
        (fun e => monthLabel e.date == p.1))) ∧
    List.Sorted strOrd ((dashboard "app" exampleStore 1).monthly_totals.map Prod.fst) :=
  monthly_totals_spec "app" exampleStore 1 (by decide)

/-- C4: deleting an expense that does not exist, or that belongs to another
user, leaves the store unchanged and flashes the not-found notice. -/
theorem delete_not_found (store : List Expense) (uid eid : Nat)
    (h : ∀ e ∈ store, ¬(e.id = eid ∧ e.user_id = uid)) :
    delete_expense store uid eid = (store, "Expense not found.") := by
  have hf : store.find? (isTarget uid eid) = none := by
    rw [List.find?_eq_none]
    intro e he
    simpa [isTarget] using h e he
  simp [delete_expense, hf]

/-- C4 witness: user 2 asks to delete expense 1, which belongs to user 1. -/
theorem delete_not_found_witness :
    delete_expense exampleStore 2 1 = (exampleStore, "Expense not found.") :=
  delete_not_found exampleStore 2 1 (by decide)

/-- The row `updateFirst` rewrites is the only one that changes. -/
theorem updateFirst_getElem? (p : Expense → Bool) (f : Expense → Expense) :
    ∀ l : List Expense, (∃ e ∈ l, p e = true) →
      ∃ i e, l[i]? = some e ∧ p e = true ∧
        (updateFirst p f l)[i]? = some (f e) ∧
        ∀ j : Nat, j ≠ i → (updateFirst p f l)[j]? = l[j]? := by
  intro l
  induction l with
  | nil => rintro ⟨e, he, _⟩; cases he
  | cons a l ih =>
    intro h
    by_cases hpa : p a = true
    · refine ⟨0, a, by simp, hpa, ?_, ?_⟩
      · simp [updateFirst, hpa]
      · intro j hj
        cases j with
        | zero => exact absurd rfl hj
        | succ j => simp [updateFirst, hpa]
    · obtain ⟨e, he, hpe⟩ := h
      have he' : e ∈ l := by
        rcases List.mem_cons.mp he with rfl | h'
        · exact absurd hpe hpa
        · exact h'
      obtain ⟨i, e', hget, hpe', hupd, hoth⟩ := ih ⟨e, he', hpe⟩
      refine ⟨i + 1, e', ?_, hpe', ?_, ?_⟩
      · simpa using hget
      · simp only [updateFirst, if_neg hpa]
        simpa using hupd
      · intro j hj
        cases j with
        | zero => simp [updateFirst, hpa]
        | succ j =>
          have hji : j ≠ i := fun hh => hj (by rw [hh])
          simp only [updateFirst, if_neg hpa]
          simpa using hoth j hji

/-- C5: editing an expense the requester owns rewrites exactly the four
submitted fields of that one row (`applyEdit` keeps `id` and `user_id`);
every other row of the store, whichever user owns it, is untouched. -/
theorem edit_isolation (store : List Expense) (uid eid : Nat) (category : String)
    (amount : ℚ) (date : Date) (description : String)
    (h : ∃ e ∈ store, isTarget uid eid e = true) :
    ∃ i e, store[i]? = some e ∧ isTarget uid eid e = true ∧
      (edit_expense store uid eid category amount date description).1[i]? =
        some (applyEdit category amount date description e) ∧
      ∀ j : Nat, j ≠ i →
        (edit_expense store uid eid category amount date description).1[j]? =
          store[j]? := by
  obtain ⟨e0, he0, hp0⟩ := h
  cases hfind : store.find? (isTarget uid eid) with
  | none => exact absurd hp0 (List.find?_eq_none.mp hfind e0 he0)
  | some w =>
    have hres : (edit_expense store uid eid category amount date description).1 =
        updateFirst (isTarget uid eid) (applyEdit category amount date description)
          store := by
      simp [edit_expense, hfind]
    rw [hres]
    exact updateFirst_getElem? _ _ store ⟨e0, he0, hp0⟩

/-- C5 witness: user 1 edits its expense 2 inside the mixed store. -/
theorem edit_isolation_witness :
    ∃ i e, exampleStoreMixed[i]? = some e ∧ isTarget 1 2 e = true ∧
      (edit_expense exampleStoreMixed 1 2 "Groceries" 7 ⟨2024, 2, 2⟩ "x").1[i]? =
        some (applyEdit "Groceries" 7 ⟨2024, 2, 2⟩ "x" e) ∧
      ∀ j : Nat, j ≠ i →
        (edit_expense exampleStoreMixed 1 2 "Groceries" 7 ⟨2024, 2, 2⟩ "x").1[j]? =
          exampleStoreMixed[j]? :=
  edit_isolation exampleStoreMixed 1 2 "Groceries" 7 ⟨2024, 2, 2⟩ "x" (by decide)

/-- C8: two distinct category labels — in particular labels differing only in
case or surrounding whitespace — each get their own (label, sum) pair, each
sum ranging over exactly the expenses whose category matches that label
verbatim, and the labels of the pairs are duplicate-free (never merged). -/
theorem categories_not_merged (baseDir : String) (store : List Expense) (uid : Nat)
    (c1 c2 : String) (hne : c1 ≠ c2)
    (h1 : ∃ e ∈ store.filter (fun e => e.user_id == uid), e.category = c1)
    (h2 : ∃ e ∈ store.filter (fun e => e.user_id == uid), e.category = c2) :
    ((c1, sumAmounts ((store.filter (fun e => e.user_id == uid)).filter
        (fun e => e.category == c1))) ∈ (dashboard baseDir store uid).category_totals) ∧
    ((c2, sumAmounts ((store.filter (fun e => e.user_id == uid)).filter
        (fun e => e.category == c2))) ∈ (dashboard baseDir store uid).category_totals) ∧
    ((dashboard baseDir store uid).category_totals.map Prod.fst).Nodup := by
  rw [dashboard_category_totals]
  obtain ⟨e1, he1, hc1⟩ := h1
  obtain ⟨e2, he2, hc2⟩ := h2
  exact ⟨groupTotals_pair_mem _ _ _ (List.mem_map.mpr ⟨e1, he1, hc1⟩),
    groupTotals_pair_mem _ _ _ (List.mem_map.mpr ⟨e2, he2, hc2⟩),
    groupTotals_keys_nodup _ _⟩

/-- C8 witness: `Food` versus `food ` (case and trailing whitespace). -/
theorem categories_not_merged_witness :
    ((("Food" : String), sumAmounts ((caseStore.filter (fun e => e.user_id == 1)).filter
        (fun e => e.category == "Food"))) ∈ (dashboard "app" caseStore 1).category_totals) ∧
    ((("food " : String), sumAmounts ((caseStore.filter (fun e => e.user_id == 1)).filter
        (fun e => e.category == "food "))) ∈ (dashboard "app" caseStore 1).category_totals) ∧
    ((dashboard "app" caseStore 1).category_totals.map Prod.fst).Nodup :=
  categories_not_merged "app" caseStore 1 "Food" "food " (by decide) (by decide) (by decide)

/-- Deleting a row that fails `q` preserves the `q`-filtered view. -/
theorem filter_eraseP (p q : Expense → Bool) (hpq : ∀ e, p e = true → q e = false) :
    ∀ l : List Expense, (l.eraseP p).filter q = l.filter q := by
  intro l
  induction l with
  | nil => rfl
  | cons a l ih =>
    by_cases hpa : p a = true
    · rw [List.eraseP_cons_of_pos hpa]
      simp [List.filter_cons, hpq a hpa]
    · rw [List.eraseP_cons_of_neg (by simpa using hpa)]
      simp [List.filter_cons, ih]

/-- Rewriting a row that fails `q` before and after preserves the
`q`-filtered view. -/
theorem filter_updateFirst (p : Expense → Bool) (f : Expense → Expense)
    (q : Expense → Bool) (hpq : ∀ e, p e = true → q e = false)
    (hfq : ∀ e, p e = true → q (f e) = false) :
    ∀ l : List Expense, (updateFirst p f l).filter q = l.filter q := by
  intro l
  induction l with
  | nil => rfl
  | cons a l ih =>
    by_cases hpa : p a = true
    · simp [updateFirst, hpa, List.filter_cons, hpq a hpa, hfq a hpa]
    · simp [updateFirst, hpa, List.filter_cons, ih]

/-- C6: the dashboard of a user is a function of that user's expenses alone
(stores agreeing on the user's rows give identical views, charts included),
and `add_expense`, `edit_expense`, `delete_expense` leave the rows of every
other user untouched. -/
theorem user_data_isolation (baseDir : String) (s1 s2 store : List Expense)
    (uid eid newId : Nat) (category : String) (amount : ℚ) (date : Date)
    (description : String) :
    (s1.filter (fun e => e.user_id == uid) = s2.filter (fun e => e.user_id == uid) →
      dashboard baseDir s1 uid = dashboard baseDir s2 uid) ∧
    (add_expense store uid newId category amount date description).filter
        (fun e => !(e.user_id == uid)) = store.filter (fun e => !(e.user_id == uid)) ∧
    (edit_expense store uid eid category amount date description).1.filter
        (fun e => !(e.user_id == uid)) = store.filter (fun e => !(e.user_id == uid)) ∧
    (delete_expense store uid eid).1.filter (fun e => !(e.user_id == uid)) =
      store.filter (fun e => !(e.user_id == uid)) := by
  refine ⟨?_, ?_, ?_, ?_⟩
  · intro h
    simp only [dashboard]
    rw [h]
  · simp [add_expense, List.filter_append]
  · cases hfind : store.find? (isTarget uid eid) with
    | none => simp [edit_expense, hfind]
    | some w =>
      simp only [edit_expense, hfind]
      refine filter_updateFirst _ _ _ ?_ ?_ store
      · intro e hp
        have : e.user_id = uid := by
          have := hp
          simp [isTarget] at this
          exact this.2
        simp [this]
      · intro e hp
        have : e.user_id = uid := by
          simp [isTarget] at hp
          exact hp.2
        simp [applyEdit, this]
  · cases hfind : store.find? (isTarget uid eid) with
    | none => simp [delete_expense, hfind]
    | some w =>
      simp only [delete_expense, hfind]
      refine filter_eraseP _ _ ?_ store
      intro e hp
      have : e.user_id = uid := by
        simp [isTarget] at hp
        exact hp.2
      simp [this]

/-- C6 witness: adding another user's row to the store leaves user 1's
dashboard identical. -/
theorem user_data_isolation_witness :
    dashboard "app" exampleStoreMixed 1 = dashboard "app" exampleStore 1 :=
  (user_data_isolation "app" exampleStoreMixed exampleStore exampleStore 1 1 9 "X" 1
    ⟨2024, 1, 1⟩ "").1 (by decide)

end ExpenseTracker
